import Mathlib

/-!
Shallow embedding of the WebRTC receive-session negotiator found in
`src/react-example.tsx` (component state, connection lifecycle, the
offer/answer driver `setupRTCConnection`, the `disconnectRTCConnection`
teardown, and the `ontrack` / `oniceconnectionstatechange` handlers).

JavaScript conventions modelled here:
- a possibly-absent string (`undefined` or a string) is an `Option String`;
  JS truthiness of such a value (`!x` tests) is `truthy`: `none` and
  `some ""` are falsy;
- the JS event loop runs each code segment between `await` suspension
  points atomically; the component is therefore modelled as a state
  machine whose atomic steps are those segments plus the event handlers;
- `String(err)` for a thrown `new Error(m)` renders as `"Error: " ++ m`;
  rejections coming from the engine or the RPC layer are modelled by an
  environment-supplied already-rendered string.
-/

namespace RTCSpec

/-- JS truthiness for a possibly-absent string: `undefined` and `""` are falsy. -/
def truthy : Option String → Bool
  | none => false
  | some s => s ≠ ""

/-- One entry of the `streams` state array (line 7 / lines 59-64): a
`MediaStream` wrapping exactly one track (modelled by that track's id)
and a display label derived from the track id. -/
structure StreamEntry where
  stream : String
  label : String
deriving DecidableEq, Repr

/-- Component state of the React component: the `useState` cells
(`streams`, `status`, `error`, `reconnecting`), the `useRef` cell
`rtcConnection.current`, and the route parameter `dongleId`.
Connections are identified by creation order (`nextConn` counts the
`new RTCPeerConnection` calls so far); `closed` records the ids on
which `.close()` has been called. -/
structure SessionState where
  dongleId : Option String
  streams : List StreamEntry
  status : Option String
  error : Option String
  reconnecting : Bool
  current : Option Nat
  nextConn : Nat
  closed : List Nat
deriving DecidableEq, Repr

/-- Initial component state: `useState([])`, `useState(null)`,
`useState(null)`, `useState(false)`, `useRef(null)`. -/
def init (did : Option String) : SessionState :=
  { dongleId := did, streams := [], status := none, error := none,
    reconnecting := false, current := none, nextConn := 0, closed := [] }

/-- Lines 20-26: `disconnectRTCConnection` closes the current connection
if there is one, nulls the ref, and clears `streams`. -/
def disconnectRTCConnection (s : SessionState) : SessionState :=
  match s.current with
  | some c => { s with closed := c :: s.closed, current := none, streams := [] }
  | none => { s with streams := [] }

/-- Lines 56-65: the `pc.ontrack` handler. Builds a single-track stream,
labels it with the track id, and appends it unless an entry with that
label is already present. Note the handler does not consult
`rtcConnection.current`: it runs the same way whatever connection fired it. -/
def onTrack (trackId : String) (prev : List StreamEntry) : List StreamEntry :=
  if prev.any (fun s => s.label == trackId) then prev
  else prev ++ [{ stream := trackId, label := trackId }]

/-- Lines 67-75: the `pc.oniceconnectionstatechange` handler.
`connected`/`completed` clears `status`; `failed`/`disconnected` sets
`error`. Like `ontrack`, it performs no check that its connection is
still the current one. -/
def onIceStateChange (state : String) (s : SessionState) : SessionState :=
  if state = "connected" ∨ state = "completed" then { s with status := none }
  else if state = "failed" ∨ state = "disconnected" then
    { s with error := some "Connection failed" }
  else s

/-- Lines 133-137: the `catch` block of `setupRTCConnection`. `e` is
`String(err)` for the caught value. Note it does not touch `status`
and does not close the connection. -/
def catchFail (e : String) (s : SessionState) : SessionState :=
  { s with error := some ("Failed to connect: " ++ e), reconnecting := false }

/-- Line 100: `setStatus("Sending offer via Athena...")`. -/
def setSendingStatus (s : SessionState) : SessionState :=
  { s with status := some "Sending offer via Athena..." }

/-- Lines 130-131: the success tail `setStatus(null); setReconnecting(false)`. -/
def markSuccess (s : SessionState) : SessionState :=
  { s with status := none, reconnecting := false }

/-- Lines 28-54 and 77: the synchronous prefix of `setupRTCConnection`,
up to the first `await` (line 78). Bails out if `dongleId` is falsy;
otherwise tears down the previous connection, resets the UI state,
creates a fresh `RTCPeerConnection` (with its transceivers and event
handlers, the latter modelled as the global steps below) and stores it
in the ref, then sets the "Creating offer..." status. -/
def negotiateEntry (s : SessionState) : SessionState :=
  if truthy s.dongleId then
    let s1 := disconnectRTCConnection s
    let s2 := { s1 with reconnecting := true, error := none,
                        status := some "Initiating connection..." }
    { s2 with current := some s2.nextConn, nextConn := s2.nextConn + 1,
              status := some "Creating offer..." }
  else s

/-- Lines 82-98: the ICE-gathering wait, as the time at which its
promise resolves. `alreadyComplete` is `pc.iceGatheringState === 'complete'`
on entry; `completeAt` is the time (ms) at which the
`icegatheringstatechange` listener would observe the complete state
(`none` if gathering never completes). The timeout arm fires at 2000ms
and resolves after removing the listener, so the promise resolves at
whichever of the two comes first. -/
def iceWaitResolveTime (alreadyComplete : Bool) (completeAt : Option Nat) : Nat :=
  if alreadyComplete then 0
  else match completeAt with
    | none => 2000
    | some t => min t 2000

/-- The relay response shape returned by `callAthena` (lines 116-126):
`error`, `sdp` and `type` fields, each possibly absent. -/
structure RelayResponse where
  error : Option String
  sdp : Option String
  type : Option String
deriving DecidableEq, Repr

/-- The request sent on lines 105-114. -/
structure AthenaRequest where
  rpcType : String
  sdp : Option String
  cameras : List String
  bridgeIn : List String
  bridgeOut : List String
  dongleId : String
deriving DecidableEq, Repr

/-- The environment of one negotiation attempt: the outcome of each
suspending operation. A `some e` in `offerResult` / `localDescResult` /
`remoteDescResult` is a rejection rendered as `String(err) = e`;
`relayResult = Sum.inl e` is a transport-level rejection of `callAthena`;
`Sum.inr none` is a null response; `sdpAtResolve` is
`pc.localDescription?.sdp` as it stands when the ICE wait resolves. -/
structure Env where
  offerResult : Option String
  localDescResult : Option String
  iceAlreadyComplete : Bool
  iceCompleteAt : Option Nat
  sdpAtResolve : Option String
  relayResult : Sum String (Option RelayResponse)
  remoteDescResult : Option String
deriving Repr

/-- Result of one driver run: the component state, the time at which the
ICE wait resolved (if reached) and the Athena request that was sent
(if the relay step was reached). -/
structure AttemptResult where
  state : SessionState
  iceWaitTime : Option Nat
  relayReq : Option AthenaRequest
deriving Repr

/-- Lines 78-137: the body of the `try` after the synchronous prefix,
with the `catch` applied at each rejection point. `s` is the state after
`negotiateEntry`; `did` is the truthy `dongleId`.
- line 78/79: `createOffer` / `setLocalDescription` may reject;
- lines 82-98: the ICE wait resolves (never rejects);
- lines 100-114: status set, request sent with the fixed camera list and
  empty bridge-service lists;
- lines 116-118: `if (!resp || resp.error) throw new Error(resp?.error || "Unknown error from Athena")`;
- lines 121-126: `if (!answerSdp || !answerType) throw new Error("Invalid response from webrtcd")`;
- line 128: `setRemoteDescription` may reject;
- lines 130-131: success tail. -/
def runAttempt (env : Env) (did : String) (s : SessionState) : AttemptResult :=
  match env.offerResult with
  | some e => ⟨catchFail e s, none, none⟩
  | none =>
    match env.localDescResult with
    | some e => ⟨catchFail e s, none, none⟩
    | none =>
      let tIce := iceWaitResolveTime env.iceAlreadyComplete env.iceCompleteAt
      let s1 := setSendingStatus s
      let req : AthenaRequest :=
        { rpcType := "forwardWebRTC", sdp := env.sdpAtResolve,
          cameras := ["driver", "wideRoad"], bridgeIn := [], bridgeOut := [],
          dongleId := did }
      let s2 :=
        match env.relayResult with
        | Sum.inl e => catchFail e s1
        | Sum.inr none => catchFail ("Error: " ++ "Unknown error from Athena") s1
        | Sum.inr (some resp) =>
          if truthy resp.error then
            catchFail ("Error: " ++ resp.error.getD "") s1
          else if truthy resp.sdp = false ∨ truthy resp.type = false then
            catchFail ("Error: " ++ "Invalid response from webrtcd") s1
          else
            match env.remoteDescResult with
            | some e => catchFail e s1
            | none => markSuccess s1
      ⟨s2, some tIce, some req⟩

/-- A whole `setupRTCConnection` call run to completion with no other
step interleaved: the guard and synchronous prefix, then the attempt. -/
def negotiateRun (env : Env) (s : SessionState) : AttemptResult :=
  if truthy s.dongleId then
    runAttempt env (s.dongleId.getD "") (negotiateEntry s)
  else ⟨s, none, none⟩

/-- The atomic steps of the component, as scheduled by the JS event
loop: a `negotiate` call's synchronous prefix, the unmount teardown,
an incoming track event or ICE-state event fired by connection `pc`
(the handlers ignore which `pc` fired them, see `onTrack` /
`onIceStateChange`), and the three state effects a resumed attempt
continuation can have (its `catch`, its line-100 status write, its
success tail). -/
inductive Act where
  | negotiate
  | teardown
  | track (pc : Nat) (trackId : String)
  | ice (pc : Nat) (state : String)
  | attemptFail (e : String)
  | attemptSendingStatus
  | attemptSuccess
deriving Repr

/-- One atomic step. -/
def stepAct : Act → SessionState → SessionState
  | Act.negotiate, s => negotiateEntry s
  | Act.teardown, s => disconnectRTCConnection s
  | Act.track _ tid, s => { s with streams := onTrack tid s.streams }
  | Act.ice _ st, s => onIceStateChange st s
  | Act.attemptFail e, s => catchFail e s
  | Act.attemptSendingStatus, s => setSendingStatus s
  | Act.attemptSuccess, s => markSuccess s

/-- Interleaved execution: fold the steps over a start state. -/
def run (acts : List Act) (s : SessionState) : SessionState :=
  acts.foldl (fun s a => stepAct a s) s

/-- Number of connections created so far and not yet closed. -/
def liveCount (s : SessionState) : Nat :=
  (List.range s.nextConn).countP (fun c => decide (c ∉ s.closed))

/-- The track registry reached from an empty `streams` array by a
sequence of track events. -/
def trackRegistry (evts : List String) : List StreamEntry :=
  evts.foldl (fun acc t => onTrack t acc) []

end RTCSpec

namespace RTCSpec

/-- The connection-ownership invariant every atomic step maintains:
every created and not-yet-closed connection is exactly the one held in
`rtcConnection.current`; closed ids were created; and the current
connection, when present, is created and not closed. -/
def ConnInv (s : SessionState) : Prop :=
  (∀ c, c < s.nextConn → c ∉ s.closed → s.current = some c) ∧
  (∀ c, c ∈ s.closed → c < s.nextConn) ∧
  (∀ c, s.current = some c → c < s.nextConn ∧ c ∉ s.closed)

theorem connInv_init (did : Option String) : ConnInv (init did) := by
  refine ⟨?_, ?_, ?_⟩ <;> intro c <;> simp [init]

theorem disconnect_current (s : SessionState) :
    (disconnectRTCConnection s).current = none := by
  unfold disconnectRTCConnection
  cases s.current <;> rfl

theorem disconnect_nextConn (s : SessionState) :
    (disconnectRTCConnection s).nextConn = s.nextConn := by
  unfold disconnectRTCConnection
  cases s.current <;> rfl

theorem disconnect_closed_of_some (s : SessionState) (c : Nat)
    (hc : s.current = some c) :
    (disconnectRTCConnection s).closed = c :: s.closed := by
  unfold disconnectRTCConnection
  rw [hc]

theorem disconnect_streams (s : SessionState) :
    (disconnectRTCConnection s).streams = [] := by
  unfold disconnectRTCConnection
  cases s.current <;> rfl

theorem disconnect_closed_of_none (s : SessionState)
    (hc : s.current = none) :
    (disconnectRTCConnection s).closed = s.closed := by
  unfold disconnectRTCConnection
  rw [hc]

theorem connInv_disconnect (s : SessionState) (h : ConnInv s) :
    ConnInv (disconnectRTCConnection s) := by
  obtain ⟨hA, hB, hC⟩ := h
  refine ⟨?_, ?_, ?_⟩
  · intro c h1 h2
    rw [disconnect_current]
    exfalso
    rw [disconnect_nextConn] at h1
    cases hc : s.current with
    | none =>
      rw [disconnect_closed_of_none s hc] at h2
      have := hA c h1 h2
      rw [hc] at this
      exact Option.noConfusion this
    | some c0 =>
      rw [disconnect_closed_of_some s c0 hc, List.mem_cons, not_or] at h2
      have := hA c h1 h2.2
      rw [hc] at this
      exact h2.1 (Option.some.inj this).symm
  · intro c h3
    rw [disconnect_nextConn]
    cases hc : s.current with
    | none =>
      rw [disconnect_closed_of_none s hc] at h3
      exact hB c h3
    | some c0 =>
      rw [disconnect_closed_of_some s c0 hc, List.mem_cons] at h3
      cases h3 with
      | inl he => exact he ▸ (hC c0 hc).1
      | inr hm => exact hB c hm
  · intro c h4
    rw [disconnect_current] at h4
    exact Option.noConfusion h4

theorem negotiateEntry_of_falsy (s : SessionState)
    (h : truthy s.dongleId = false) : negotiateEntry s = s := by
  unfold negotiateEntry
  rw [h]
  rfl

theorem negotiateEntry_of_truthy (s : SessionState)
    (h : truthy s.dongleId = true) :
    negotiateEntry s =
      { disconnectRTCConnection s with
        reconnecting := true, error := none, status := some "Creating offer...",
        current := some (disconnectRTCConnection s).nextConn,
        nextConn := (disconnectRTCConnection s).nextConn + 1 } := by
  unfold negotiateEntry
  rw [h]
  rfl

theorem connInv_negotiateEntry (s : SessionState) (h : ConnInv s) :
    ConnInv (negotiateEntry s) := by
  cases ht : truthy s.dongleId with
  | false => rw [negotiateEntry_of_falsy s ht]; exact h
  | true =>
    rw [negotiateEntry_of_truthy s ht]
    obtain ⟨hA, hB, hC⟩ := connInv_disconnect s h
    have hnone := disconnect_current s
    refine ⟨?_, ?_, ?_⟩
    · intro c h1 h2
      have hcn : c = (disconnectRTCConnection s).nextConn := by
        by_contra hne
        have hlt : c < (disconnectRTCConnection s).nextConn :=
          Nat.lt_of_le_of_ne (Nat.le_of_lt_succ h1) hne
        have := hA c hlt h2
        rw [hnone] at this
        exact Option.noConfusion this
      rw [hcn]
    · intro c h3
      exact Nat.lt_succ_of_lt (hB c h3)
    · intro c h4
      have he : (disconnectRTCConnection s).nextConn = c := Option.some.inj h4
      refine ⟨he ▸ Nat.lt_succ_self _, ?_⟩
      intro hmem
      rw [← he] at hmem
      exact absurd (hB _ hmem) (Nat.lt_irrefl _)

theorem connInv_step (a : Act) (s : SessionState) (h : ConnInv s) :
    ConnInv (stepAct a s) := by
  cases a with
  | negotiate => exact connInv_negotiateEntry s h
  | teardown => exact connInv_disconnect s h
  | track pc tid => exact h
  | ice pc st =>
    simp only [stepAct, onIceStateChange]
    split
    · exact h
    split
    · exact h
    · exact h
  | attemptFail e => exact h
  | attemptSendingStatus => exact h
  | attemptSuccess => exact h

theorem connInv_run (acts : List Act) (s : SessionState) (h : ConnInv s) :
    ConnInv (run acts s) := by
  induction acts generalizing s with
  | nil => exact h
  | cons a rest ih => exact ih (stepAct a s) (connInv_step a s h)

theorem liveCount_eq_zero_of_none (s : SessionState) (h : ConnInv s)
    (hc : s.current = none) : liveCount s = 0 := by
  unfold liveCount
  rw [List.countP_eq_zero]
  intro c hcmem
  simp only [decide_eq_true_eq]
  intro h2
  have := h.1 c (List.mem_range.mp hcmem) h2
  rw [hc] at this
  exact Option.noConfusion this

theorem liveCount_le_one (s : SessionState) (h : ConnInv s) :
    liveCount s ≤ 1 := by
  cases hc : s.current with
  | none =>
    rw [liveCount_eq_zero_of_none s h hc]
    exact Nat.zero_le 1
  | some c0 =>
    unfold liveCount
    have hmono : (List.range s.nextConn).countP (fun c => decide (c ∉ s.closed))
        ≤ (List.range s.nextConn).countP (fun c => c == c0) := by
      apply List.countP_mono_left
      intro c hcm hp
      simp only [decide_eq_true_eq] at hp
      have := h.1 c (List.mem_range.mp hcm) hp
      rw [hc] at this
      simp [Option.some.inj this]
    calc (List.range s.nextConn).countP (fun c => decide (c ∉ s.closed))
        ≤ (List.range s.nextConn).countP (fun c => c == c0) := hmono
      _ = (List.range s.nextConn).count c0 := (List.count_eq_countP c0 _).symm
      _ ≤ 1 := List.nodup_iff_count_le_one.mp (List.nodup_range _) c0

end RTCSpec

namespace RTCSpec

theorem onTrack_of_mem (t : String) (l : List StreamEntry)
    (h : l.any (fun e => e.label == t) = true) : onTrack t l = l := by
  unfold onTrack
  rw [h]
  rfl

theorem onTrack_labels_nodup (t : String) (l : List StreamEntry)
    (h : (l.map StreamEntry.label).Nodup) :
    ((onTrack t l).map StreamEntry.label).Nodup := by
  unfold onTrack
  cases ha : l.any (fun e => e.label == t) with
  | true => simpa using h
  | false =>
    simp only [Bool.false_eq_true, if_false, List.map_append, List.map_cons,
      List.map_nil]
    rw [List.nodup_append]
    refine ⟨h, List.nodup_singleton t, ?_⟩
    intro x hx hx2
    rw [List.mem_singleton] at hx2
    subst hx2
    rw [List.mem_map] at hx
    obtain ⟨e, he, hel⟩ := hx
    have := List.any_eq_false.mp ha e he
    rw [hel] at this
    simp at this

theorem trackRegistry_labels_nodup (evts : List String) :
    ((trackRegistry evts).map StreamEntry.label).Nodup := by
  suffices h : ∀ l : List StreamEntry, (l.map StreamEntry.label).Nodup →
      (((evts.foldl (fun acc t => onTrack t acc) l)).map StreamEntry.label).Nodup by
    exact h [] (by simp)
  induction evts with
  | nil => intro l hl; exact hl
  | cons t rest ih => intro l hl; exact ih _ (onTrack_labels_nodup t l hl)

theorem trackRegistry_countP_le_one (evts : List String) (t : String) :
    (trackRegistry evts).countP (fun e => e.label == t) ≤ 1 := by
  have h1 := trackRegistry_labels_nodup evts
  have h2 : (trackRegistry evts).countP (fun e => e.label == t)
      = ((trackRegistry evts).map StreamEntry.label).count t := by
    rw [List.count_eq_countP, List.countP_map]
    rfl
  rw [h2]
  exact List.nodup_iff_count_le_one.mp h1 t

/-- C2: starting from the cleared registry, after any sequence of
incoming track events the registry holds at most one entry whose label
is a given track identifier, and a further event carrying an identifier
that is already present leaves the registry unchanged. -/
theorem track_registry_dedup (evts : List String) (t : String) :
    (trackRegistry evts).countP (fun e => e.label == t) ≤ 1 ∧
    ((trackRegistry evts).any (fun e => e.label == t) = true →
      onTrack t (trackRegistry evts) = trackRegistry evts) :=
  ⟨trackRegistry_countP_le_one evts t, fun h => onTrack_of_mem t _ h⟩

/-- Witness for `track_registry_dedup`: the registry built from the
events t0, t0, t1 holds one t0 entry, and a further t0 event is a no-op. -/
theorem track_registry_dedup_witness :
    (trackRegistry ["t0", "t0", "t1"]).countP (fun e => e.label == "t0") ≤ 1 ∧
    onTrack "t0" (trackRegistry ["t0", "t0", "t1"]) = trackRegistry ["t0", "t0", "t1"] :=
  ⟨(track_registry_dedup ["t0", "t0", "t1"] "t0").1,
   (track_registry_dedup ["t0", "t0", "t1"] "t0").2 (by decide)⟩

/-- C3 (amended): teardown empties the track registry, but the handlers
contain no staleness guard: a track event from any connection — in
particular the one just torn down — delivered after teardown appends to
the registry, and an ICE "failed" event delivered after teardown sets
the error, so stale events are not inert. -/
theorem teardown_empties_registry_but_stale_events_mutate
    (s : SessionState) (pc : Nat) (tid : String) :
    (disconnectRTCConnection s).streams = [] ∧
    (stepAct (Act.track pc tid) (disconnectRTCConnection s)).streams =
      [{ stream := tid, label := tid }] ∧
    (stepAct (Act.ice pc "failed") (disconnectRTCConnection s)).error =
      some "Connection failed" := by
  refine ⟨disconnect_streams s, ?_, ?_⟩
  · show onTrack tid (disconnectRTCConnection s).streams = _
    rw [disconnect_streams s]
    rfl
  · show (onIceStateChange "failed" (disconnectRTCConnection s)).error = _
    unfold onIceStateChange
    rw [if_neg (by decide), if_pos (Or.inl rfl)]

/-- C3 counterexample: after a negotiate and a teardown, connection 0 is
closed and the registry is empty, yet a track event originating from
connection 0 delivered afterwards changes the observable streams state,
because neither handler checks the originating connection. -/
theorem stale_track_event_changes_state :
    0 ∈ (stepAct Act.teardown (run [Act.negotiate] (init (some "abc123")))).closed ∧
    (stepAct Act.teardown (run [Act.negotiate] (init (some "abc123")))).streams = [] ∧
    (stepAct (Act.track 0 "t0")
        (stepAct Act.teardown (run [Act.negotiate] (init (some "abc123"))))).streams ≠
      (stepAct Act.teardown (run [Act.negotiate] (init (some "abc123")))).streams := by
  decide

/-- C7 (amended): an ICE-connection-state change to "connected" or
"completed" clears the status message only — the error message (and all
other state, in particular the connection bookkeeping, so negotiation is
never restarted) is left unchanged; "failed" or "disconnected" sets the
error to the generic "Connection failed" message and changes nothing else. -/
theorem ice_state_change_effects (s : SessionState) :
    onIceStateChange "connected" s = { s with status := none } ∧
    onIceStateChange "completed" s = { s with status := none } ∧
    onIceStateChange "failed" s = { s with error := some "Connection failed" } ∧
    onIceStateChange "disconnected" s = { s with error := some "Connection failed" } := by
  refine ⟨?_, ?_, ?_, ?_⟩
  · unfold onIceStateChange; rw [if_pos (Or.inl rfl)]
  · unfold onIceStateChange; rw [if_pos (Or.inr rfl)]
  · unfold onIceStateChange; rw [if_neg (by decide), if_pos (Or.inl rfl)]
  · unfold onIceStateChange; rw [if_neg (by decide), if_pos (Or.inr rfl)]

/-- C7 counterexample: with an error present, an ICE "connected" event
clears only the status; the error message survives, contradicting the
claim that the handler clears both. -/
theorem ice_connected_does_not_clear_error :
    (onIceStateChange "connected"
      { init (some "abc123") with error := some "boom", status := some "x" }).status = none ∧
    (onIceStateChange "connected"
      { init (some "abc123") with error := some "boom", status := some "x" }).error =
      some "boom" ∧
    (onIceStateChange "connected"
      { init (some "abc123") with error := some "boom", status := some "x" }).error ≠ none := by
  decide

/-- C10: a `negotiate()` call with an absent (or empty) device
identifier returns before doing anything: the state is unchanged (no
connection closed or created, registry/status/error/reconnecting all
keep their values) and no relay request is sent. -/
theorem negotiate_noop_when_dongle_absent (s : SessionState) (env : Env)
    (h : truthy s.dongleId = false) :
    stepAct Act.negotiate s = s ∧
    (negotiateRun env s).state = s ∧
    (negotiateRun env s).relayReq = none := by
  refine ⟨negotiateEntry_of_falsy s h, ?_, ?_⟩ <;>
    · unfold negotiateRun
      rw [h]
      rfl

/-- Witness for `negotiate_noop_when_dongle_absent` at the initial state
with no device identifier. -/
theorem negotiate_noop_when_dongle_absent_witness :
    stepAct Act.negotiate (init none) = init none ∧
    (negotiateRun
      { offerResult := none, localDescResult := none, iceAlreadyComplete := false,
        iceCompleteAt := none, sdpAtResolve := none,
        relayResult := Sum.inr none, remoteDescResult := none }
      (init none)).state = init none ∧
    (negotiateRun
      { offerResult := none, localDescResult := none, iceAlreadyComplete := false,
        iceCompleteAt := none, sdpAtResolve := none,
        relayResult := Sum.inr none, remoteDescResult := none }
      (init none)).relayReq = none :=
  negotiate_noop_when_dongle_absent (init none) _ (by decide)

end RTCSpec

namespace RTCSpec

/-- Fixture: an attempt in which every suspending operation succeeds and
the relay returns a well-formed answer. -/
def envSuccess : Env :=
  { offerResult := none, localDescResult := none, iceAlreadyComplete := false,
    iceCompleteAt := some 50, sdpAtResolve := some "v=0 offer",
    relayResult := Sum.inr (some { error := none, sdp := some "v=0 answer",
                                   type := some "answer" }),
    remoteDescResult := none }

/-- Fixture: the relay responds with `{error: "device offline"}`. -/
def envRelayError : Env :=
  { envSuccess with
    relayResult := Sum.inr (some { error := some "device offline", sdp := none,
                                   type := none }) }

/-- Fixture: the relay response carries both a non-empty error field and
a missing answer sdp/type. -/
def envErrorAndMissing : Env :=
  { envSuccess with
    relayResult := Sum.inr (some { error := some "device busy", sdp := none,
                                   type := none }) }

theorem runAttempt_offer_fail (env : Env) (did : String) (s : SessionState)
    (e : String) (h1 : env.offerResult = some e) :
    runAttempt env did s = ⟨catchFail e s, none, none⟩ := by
  unfold runAttempt
  rw [h1]

theorem runAttempt_localDesc_fail (env : Env) (did : String) (s : SessionState)
    (e : String) (h1 : env.offerResult = none)
    (h2 : env.localDescResult = some e) :
    runAttempt env did s = ⟨catchFail e s, none, none⟩ := by
  unfold runAttempt
  rw [h1, h2]

/-- When the offer and local description succeed, the attempt reaches
the relay step: it resolves the ICE wait, sets the sending status, and
sends the fixed request; the rest depends on the relay outcome. -/
theorem runAttempt_past_wait (env : Env) (did : String) (s : SessionState)
    (h1 : env.offerResult = none) (h2 : env.localDescResult = none) :
    (runAttempt env did s).iceWaitTime =
      some (iceWaitResolveTime env.iceAlreadyComplete env.iceCompleteAt) ∧
    (runAttempt env did s).relayReq =
      some { rpcType := "forwardWebRTC", sdp := env.sdpAtResolve,
             cameras := ["driver", "wideRoad"], bridgeIn := [], bridgeOut := [],
             dongleId := did } := by
  unfold runAttempt
  rw [h1, h2]
  exact ⟨rfl, rfl⟩

theorem runAttempt_relay_resp (env : Env) (did : String) (s : SessionState)
    (r : RelayResponse) (h1 : env.offerResult = none)
    (h2 : env.localDescResult = none)
    (h3 : env.relayResult = Sum.inr (some r)) :
    (runAttempt env did s).state =
      (if truthy r.error = true then
        catchFail ("Error: " ++ r.error.getD "") (setSendingStatus s)
      else if truthy r.sdp = false ∨ truthy r.type = false then
        catchFail ("Error: " ++ "Invalid response from webrtcd") (setSendingStatus s)
      else
        match env.remoteDescResult with
        | some e => catchFail e (setSendingStatus s)
        | none => markSuccess (setSendingStatus s)) := by
  unfold runAttempt
  rw [h1, h2, h3]

theorem negotiateEntry_status_of_truthy (s : SessionState)
    (h : truthy s.dongleId = true) :
    (negotiateEntry s).status = some "Creating offer..." := by
  rw [negotiateEntry_of_truthy s h]

theorem negotiateEntry_error_of_truthy (s : SessionState)
    (h : truthy s.dongleId = true) :
    (negotiateEntry s).error = none := by
  rw [negotiateEntry_of_truthy s h]

/-- C4 (amended): if the relay response carries a non-empty error field
`e`, the attempt ends failed with the session error message
`"Failed to connect: " ++ ("Error: " ++ e)` and the reconnect flag
cleared — the relay's text is embedded behind the catch handler's
prefix, not surfaced verbatim. -/
theorem relay_error_surfaced_with_prefix (s : SessionState) (env : Env)
    (r : RelayResponse) (e : String)
    (hd : truthy s.dongleId = true)
    (h1 : env.offerResult = none) (h2 : env.localDescResult = none)
    (h3 : env.relayResult = Sum.inr (some r))
    (h4 : r.error = some e) (h5 : e ≠ "") :
    (negotiateRun env s).state.error =
      some ("Failed to connect: " ++ ("Error: " ++ e)) ∧
    (negotiateRun env s).state.reconnecting = false := by
  unfold negotiateRun
  rw [if_pos hd]
  have ht : truthy r.error = true := by
    rw [h4]
    exact decide_eq_true h5
  rw [runAttempt_relay_resp env _ _ r h1 h2 h3, if_pos ht, h4]
  exact ⟨rfl, rfl⟩

/-- Witness for `relay_error_surfaced_with_prefix`: the
`{error: "device offline"}` response of the spec scenario. -/
theorem relay_error_surfaced_with_prefix_witness :
    (negotiateRun envRelayError (init (some "abc123"))).state.error =
      some ("Failed to connect: " ++ ("Error: " ++ "device offline")) ∧
    (negotiateRun envRelayError (init (some "abc123"))).state.reconnecting = false :=
  relay_error_surfaced_with_prefix (init (some "abc123")) envRelayError
    { error := some "device offline", sdp := none, type := none } "device offline"
    (by decide) rfl rfl rfl rfl (by decide)

/-- C4 counterexample: for the relay response `{error: "device offline"}`
the final error message is "Failed to connect: Error: device offline",
not the verbatim "device offline" the claim demands. -/
theorem relay_error_not_verbatim :
    (negotiateRun envRelayError (init (some "abc123"))).state.error ≠
      some "device offline" ∧
    (negotiateRun envRelayError (init (some "abc123"))).state.error =
      some "Failed to connect: Error: device offline" := by
  decide

/-- C5 (amended): if the relay response's error field is absent or empty
and the answer sdp or type is missing (or empty), the attempt ends
failed with the malformed-response message
`"Failed to connect: " ++ ("Error: " ++ "Invalid response from webrtcd")`.
A non-empty error field takes precedence over this check, so the
malformed-response message is not produced in that case. -/
theorem missing_answer_fields_invalid_response_error (s : SessionState)
    (env : Env) (r : RelayResponse)
    (hd : truthy s.dongleId = true)
    (h1 : env.offerResult = none) (h2 : env.localDescResult = none)
    (h3 : env.relayResult = Sum.inr (some r))
    (h4 : truthy r.error = false)
    (h5 : truthy r.sdp = false ∨ truthy r.type = false) :
    (negotiateRun env s).state.error =
      some ("Failed to connect: " ++ ("Error: " ++ "Invalid response from webrtcd")) ∧
    (negotiateRun env s).state.reconnecting = false := by
  unfold negotiateRun
  rw [if_pos hd]
  rw [runAttempt_relay_resp env _ _ r h1 h2 h3, if_neg (by simp [h4]), if_pos h5]
  exact ⟨rfl, rfl⟩

/-- Witness for `missing_answer_fields_invalid_response_error`: a
response with no error field and a missing sdp. -/
theorem missing_answer_fields_invalid_response_error_witness :
    (negotiateRun
      { envSuccess with
        relayResult := Sum.inr (some { error := none, sdp := none,
                                       type := some "answer" }) }
      (init (some "abc123"))).state.error =
      some ("Failed to connect: " ++ ("Error: " ++ "Invalid response from webrtcd")) ∧
    (negotiateRun
      { envSuccess with
        relayResult := Sum.inr (some { error := none, sdp := none,
                                       type := some "answer" }) }
      (init (some "abc123"))).state.reconnecting = false :=
  missing_answer_fields_invalid_response_error (init (some "abc123")) _
    { error := none, sdp := none, type := some "answer" }
    (by decide) rfl rfl rfl rfl (Or.inl rfl)

/-- C5 counterexample: a response that is missing the answer sdp and
type but also carries the non-empty error field "device busy" fails with
the relay-error message, not the malformed-response message — so the
claimed independence from the error field is false. -/
theorem error_field_overrides_invalid_response :
    (negotiateRun envErrorAndMissing (init (some "abc123"))).state.error =
      some "Failed to connect: Error: device busy" ∧
    (negotiateRun envErrorAndMissing (init (some "abc123"))).state.error ≠
      some "Failed to connect: Error: Invalid response from webrtcd" := by
  decide

end RTCSpec

namespace RTCSpec

/-- C1: over every interleaved sequence of atomic steps (negotiate
calls, attempt resumptions, events, teardowns) from the initial state,
at most one connection is ever live (created and not closed); teardown
always leaves zero live connections; and a negotiate call on a truthy
device id closes the previously current connection before the new one
exists — afterwards the old connection is closed and no longer current. -/
theorem negotiate_preserves_single_live_connection
    (did : Option String) (acts : List Act) :
    liveCount (run acts (init did)) ≤ 1 ∧
    liveCount (stepAct Act.teardown (run acts (init did))) = 0 ∧
    (∀ c, (run acts (init did)).current = some c →
      truthy (run acts (init did)).dongleId = true →
      c ∈ (stepAct Act.negotiate (run acts (init did))).closed ∧
        (stepAct Act.negotiate (run acts (init did))).current ≠ some c) := by
  have hinv : ConnInv (run acts (init did)) :=
    connInv_run acts (init did) (connInv_init did)
  refine ⟨liveCount_le_one _ hinv, ?_, ?_⟩
  · exact liveCount_eq_zero_of_none _ (connInv_disconnect _ hinv)
      (disconnect_current _)
  · intro c hcur ht
    have hlt := (hinv.2.2 c hcur).1
    constructor
    · show c ∈ (negotiateEntry (run acts (init did))).closed
      rw [negotiateEntry_of_truthy _ ht]
      show c ∈ (disconnectRTCConnection (run acts (init did))).closed
      rw [disconnect_closed_of_some _ c hcur]
      exact List.mem_cons_self _ _
    · show (negotiateEntry (run acts (init did))).current ≠ some c
      rw [negotiateEntry_of_truthy _ ht]
      show some (disconnectRTCConnection (run acts (init did))).nextConn ≠ some c
      rw [disconnect_nextConn]
      intro heq
      have h := Option.some.inj heq
      rw [h] at hlt
      exact Nat.lt_irrefl c hlt

/-- Witness for `negotiate_preserves_single_live_connection`: after one
negotiate call, a second negotiate closes connection 0 and replaces it. -/
theorem negotiate_preserves_single_live_connection_witness :
    0 ∈ (stepAct Act.negotiate (run [Act.negotiate] (init (some "abc123")))).closed ∧
    (stepAct Act.negotiate (run [Act.negotiate] (init (some "abc123")))).current ≠ some 0 :=
  (negotiate_preserves_single_live_connection (some "abc123") [Act.negotiate]).2.2 0
    (by decide) (by decide)

/-- All the ways a negotiation attempt can fail: offer or
local-description rejection, relay transport rejection, null relay
response, truthy relay error field, missing answer sdp or type, or
remote-description rejection. -/
def AttemptFails (env : Env) : Prop :=
  env.offerResult.isSome = true ∨ env.localDescResult.isSome = true ∨
  (∃ e, env.relayResult = Sum.inl e) ∨ env.relayResult = Sum.inr none ∨
  (∃ r, env.relayResult = Sum.inr (some r) ∧
    (truthy r.error = true ∨ truthy r.sdp = false ∨ truthy r.type = false)) ∨
  env.remoteDescResult.isSome = true

theorem runAttempt_relay_inl (env : Env) (did : String) (s : SessionState)
    (e : String) (h1 : env.offerResult = none)
    (h2 : env.localDescResult = none) (h3 : env.relayResult = Sum.inl e) :
    (runAttempt env did s).state = catchFail e (setSendingStatus s) := by
  unfold runAttempt
  rw [h1, h2, h3]

theorem runAttempt_relay_null (env : Env) (did : String) (s : SessionState)
    (h1 : env.offerResult = none) (h2 : env.localDescResult = none)
    (h3 : env.relayResult = Sum.inr none) :
    (runAttempt env did s).state =
      catchFail ("Error: " ++ "Unknown error from Athena") (setSendingStatus s) := by
  unfold runAttempt
  rw [h1, h2, h3]

theorem runAttempt_fail (env : Env) (did : String) (s : SessionState)
    (hs : s.status.isSome = true) (hf : AttemptFails env) :
    (runAttempt env did s).state.error.isSome = true ∧
    (runAttempt env did s).state.reconnecting = false ∧
    (runAttempt env did s).state.status.isSome = true := by
  cases ho : env.offerResult with
  | some e =>
    rw [runAttempt_offer_fail env did s e ho]
    exact ⟨rfl, rfl, hs⟩
  | none =>
    cases hl : env.localDescResult with
    | some e =>
      rw [runAttempt_localDesc_fail env did s e ho hl]
      exact ⟨rfl, rfl, hs⟩
    | none =>
      cases hr : env.relayResult with
      | inl e =>
        rw [runAttempt_relay_inl env did s e ho hl hr]
        exact ⟨rfl, rfl, rfl⟩
      | inr ro =>
        cases ro with
        | none =>
          rw [runAttempt_relay_null env did s ho hl hr]
          exact ⟨rfl, rfl, rfl⟩
        | some r =>
          rw [runAttempt_relay_resp env did s r ho hl hr]
          by_cases he : truthy r.error = true
          · rw [if_pos he]
            exact ⟨rfl, rfl, rfl⟩
          · rw [if_neg he]
            by_cases hm : truthy r.sdp = false ∨ truthy r.type = false
            · rw [if_pos hm]
              exact ⟨rfl, rfl, rfl⟩
            · rw [if_neg hm]
              cases hrm : env.remoteDescResult with
              | some e => exact ⟨rfl, rfl, rfl⟩
              | none =>
                exfalso
                rcases hf with h | h | ⟨e2, h⟩ | h | ⟨r2, h, hbad⟩ | h
                · rw [ho] at h
                  simp at h
                · rw [hl] at h
                  simp at h
                · rw [h] at hr
                  simp at hr
                · rw [h] at hr
                  simp at hr
                · rw [h] at hr
                  have hrr : r2 = r := by simpa using hr
                  subst hrr
                  rcases hbad with hb | hb | hb
                  · exact he hb
                  · exact hm (Or.inl hb)
                  · exact hm (Or.inr hb)
                · rw [hrm] at h
                  simp at h

/-- C6 (amended): whenever a negotiation attempt fails — for any of
offer/local-description failure, relay transport failure, null
response, relay error field, malformed relay response, or
remote-description failure — the session ends with the error message
set and the reconnect flag cleared to false, while the status message
keeps its last progress value instead of being cleared (the catch block
never calls setStatus). -/
theorem failure_sets_error_clears_reconnecting_keeps_status
    (s : SessionState) (env : Env)
    (hd : truthy s.dongleId = true) (hf : AttemptFails env) :
    (negotiateRun env s).state.error.isSome = true ∧
    (negotiateRun env s).state.reconnecting = false ∧
    (negotiateRun env s).state.status.isSome = true := by
  unfold negotiateRun
  rw [if_pos hd]
  refine runAttempt_fail env _ (negotiateEntry s) ?_ hf
  rw [negotiateEntry_status_of_truthy s hd]
  rfl

/-- Witness for `failure_sets_error_clears_reconnecting_keeps_status`
at the `{error: "device offline"}` relay response. -/
theorem failure_sets_error_clears_reconnecting_keeps_status_witness :
    (negotiateRun envRelayError (init (some "abc123"))).state.error.isSome = true ∧
    (negotiateRun envRelayError (init (some "abc123"))).state.reconnecting = false ∧
    (negotiateRun envRelayError (init (some "abc123"))).state.status.isSome = true :=
  failure_sets_error_clears_reconnecting_keeps_status (init (some "abc123"))
    envRelayError (by decide)
    (Or.inr (Or.inr (Or.inr (Or.inr (Or.inl
      ⟨{ error := some "device offline", sdp := none, type := none }, rfl,
        Or.inl (by decide)⟩)))))

/-- C6 counterexample: on the relay-error failure the status message is
still "Sending offer via Athena...", not cleared to none as claimed. -/
theorem failure_does_not_clear_status :
    (negotiateRun envRelayError (init (some "abc123"))).state.status =
      some "Sending offer via Athena..." ∧
    (negotiateRun envRelayError (init (some "abc123"))).state.status ≠ none := by
  decide

/-- C8 (amended): a sequential attempt whose relay response is
well-formed (truthy sdp and type, no truthy error) and whose remote
description applies successfully ends ready: status none, reconnect flag
false, and error none — the error being none because the entry cleared
it and no advisory ICE event intervened; the success tail itself does
not clear the error. -/
theorem success_reaches_ready_with_cleared_state (s : SessionState)
    (env : Env) (r : RelayResponse)
    (hd : truthy s.dongleId = true)
    (h1 : env.offerResult = none) (h2 : env.localDescResult = none)
    (h3 : env.relayResult = Sum.inr (some r))
    (h4 : truthy r.error = false) (h5 : truthy r.sdp = true)
    (h6 : truthy r.type = true) (h7 : env.remoteDescResult = none) :
    (negotiateRun env s).state.status = none ∧
    (negotiateRun env s).state.reconnecting = false ∧
    (negotiateRun env s).state.error = none := by
  unfold negotiateRun
  rw [if_pos hd]
  rw [runAttempt_relay_resp env _ _ r h1 h2 h3, if_neg (by simp [h4]),
      if_neg (by simp [h5, h6]), h7]
  exact ⟨rfl, rfl, negotiateEntry_error_of_truthy s hd⟩

/-- Witness for `success_reaches_ready_with_cleared_state`: the spec's
success scenario (well-formed answer, no error). -/
theorem success_reaches_ready_with_cleared_state_witness :
    (negotiateRun envSuccess (init (some "abc123"))).state.status = none ∧
    (negotiateRun envSuccess (init (some "abc123"))).state.reconnecting = false ∧
    (negotiateRun envSuccess (init (some "abc123"))).state.error = none :=
  success_reaches_ready_with_cleared_state (init (some "abc123")) envSuccess
    { error := none, sdp := some "v=0 answer", type := some "answer" }
    (by decide) rfl rfl rfl (by decide) (by decide) (by decide) rfl

/-- C8 counterexample: if an advisory ICE "failed" event fires during
the attempt, the successful finish leaves that error in place — the
session reaches ready with status none and reconnect false but error
"Connection failed", contradicting the claim that the error is cleared
in such runs. -/
theorem advisory_error_survives_success :
    (run [Act.negotiate, Act.ice 0 "failed", Act.attemptSuccess]
      (init (some "abc123"))).status = none ∧
    (run [Act.negotiate, Act.ice 0 "failed", Act.attemptSuccess]
      (init (some "abc123"))).reconnecting = false ∧
    (run [Act.negotiate, Act.ice 0 "failed", Act.attemptSuccess]
      (init (some "abc123"))).error = some "Connection failed" ∧
    (run [Act.negotiate, Act.ice 0 "failed", Act.attemptSuccess]
      (init (some "abc123"))).error ≠ none := by
  decide

/-- C9: the ICE-gathering wait always resolves: at time 0 when gathering
is already complete, and never later than the 2000ms timeout bound even
if the gathering-complete event never fires; and whenever the offer and
local-description steps succeed, the attempt proceeds to the relay step,
sending the fixed request with the local description as it stands at
resolution time, whichever side of the race resolved it. -/
theorem ice_wait_bounded_and_relay_proceeds (b : Bool) (tc : Option Nat)
    (env : Env) (did : String) (s : SessionState) :
    iceWaitResolveTime b tc ≤ 2000 ∧
    (b = true → iceWaitResolveTime b tc = 0) ∧
    (env.offerResult = none → env.localDescResult = none →
      (runAttempt env did s).iceWaitTime =
        some (iceWaitResolveTime env.iceAlreadyComplete env.iceCompleteAt) ∧
      (runAttempt env did s).relayReq =
        some { rpcType := "forwardWebRTC", sdp := env.sdpAtResolve,
               cameras := ["driver", "wideRoad"], bridgeIn := [], bridgeOut := [],
               dongleId := did }) := by
  refine ⟨?_, ?_, fun h1 h2 => runAttempt_past_wait env did s h1 h2⟩
  · cases b with
    | true => exact Nat.zero_le 2000
    | false =>
      cases tc with
      | none => exact Nat.le_refl 2000
      | some t => exact Nat.min_le_right t 2000
  · intro hb
    subst hb
    rfl

/-- Witness for `ice_wait_bounded_and_relay_proceeds`: immediate
resolution when already complete, the 2000ms bound when gathering never
completes, and the concrete request sent on the success fixture. -/
theorem ice_wait_bounded_and_relay_proceeds_witness :
    iceWaitResolveTime true none = 0 ∧
    iceWaitResolveTime false none ≤ 2000 ∧
    (runAttempt envSuccess "abc123" (init (some "abc123"))).relayReq =
      some { rpcType := "forwardWebRTC", sdp := some "v=0 offer",
             cameras := ["driver", "wideRoad"], bridgeIn := [], bridgeOut := [],
             dongleId := "abc123" } :=
  ⟨(ice_wait_bounded_and_relay_proceeds true none envSuccess "abc123"
      (init (some "abc123"))).2.1 rfl,
   (ice_wait_bounded_and_relay_proceeds false none envSuccess "abc123"
      (init (some "abc123"))).1,
   ((ice_wait_bounded_and_relay_proceeds false none envSuccess "abc123"
      (init (some "abc123"))).2.2 rfl rfl).2⟩

end RTCSpec
